import Mathlib

/-!
Verification development for the drive-link-generator utility (`script.js`).

The program converts a Google Drive share link into a direct-download link.
Its logic is embedded shallowly here:

* the regex `/(?:https?:\/\/(?:drive\.google\.com\/(?:file\/d\/|open\?id=)|docs\.google\.com\/document\/d\/))([a-zA-Z0-9_-]+)/`
  applied by `input.match(...)` (line 140) becomes the scanning function
  `extract` over `List Char`: the six expansions of the alternation are the
  literal patterns in `drivePatterns`, tried at each start position from the
  left, and the captured group is the maximal `takeWhile idChar` run, required
  to be non-empty (as for `+`);
* the DOM state touched by the script (input field, output field, status area,
  copy button inline styles, generate-button loading class) becomes the record
  `GState`; `generateLink`, `copyToClipboard`, `toggleCopyButtonState`,
  `displayStatusMessage` mirror the functions of the same names and also
  return a trace of the externally visible actions they perform, in order;
* the theme code (localStorage, body class, checkbox) becomes `ThemeState`
  with `applySavedTheme` and the change-listener `themeToggleChange`;
* the status-toast timer behaviour of `displayStatusMessage` (a tracked
  5000 ms `setTimeout` whose callback schedules an untracked nested 400 ms
  `setTimeout`, and `clearTimeout` on the tracked id) becomes the event
  system on `NotifierState`, with `legalRun` checking that timers fire at
  their deadlines in deadline order and that wall-clock time is monotone.
-/

/-- The character class `[a-zA-Z0-9_-]` of the capture group (line 141). -/
def idChar (c : Char) : Bool :=
  ('a' ≤ c && c ≤ 'z') || ('A' ≤ c && c ≤ 'Z') || ('0' ≤ c && c ≤ '9') || c == '_' || c == '-'

/-- The six expansions of the regex alternation
`https?://(drive.google.com/(file/d/|open?id=)|docs.google.com/document/d/)`
(line 141), in the order the backtracking engine tries them at a given start
position (greedy `s?` first, alternatives left to right).  At any one start
position at most one of them can match, since each pair differs at some index
both cover. -/
def drivePatterns : List (List Char) :=
  [ "https://drive.google.com/file/d/".data
  , "https://drive.google.com/open?id=".data
  , "https://docs.google.com/document/d/".data
  , "http://drive.google.com/file/d/".data
  , "http://drive.google.com/open?id=".data
  , "http://docs.google.com/document/d/".data ]

/-- Strip the first pattern of `ps` that is a prefix of `l`, returning the
rest of `l` after it. -/
def stripFirst : List (List Char) → List Char → Option (List Char)
  | [], _ => none
  | p :: ps, l => if p.isPrefixOf l then some (l.drop p.length) else stripFirst ps l

/-- Try the fixed alternation at the current start position. -/
def stripDrivePattern (l : List Char) : Option (List Char) :=
  stripFirst drivePatterns l

/-- The whole unanchored match `input.match(regex)` restricted to its capture
group (line 140): scan start positions left to right; where the alternation
matches, take the maximal run of `idChar`s after it, which must be non-empty
(the `+`); if it is empty the engine abandons this start position and resumes
scanning one character further. -/
def extract : List Char → Option (List Char)
  | [] => none
  | c :: rest =>
    match stripDrivePattern (c :: rest) with
    | some after =>
      let fid := after.takeWhile idChar
      if fid.isEmpty then extract rest else some fid
    | none => extract rest

/-- Decidable check that the pattern `p` occurs contiguously somewhere in `l`. -/
def containsPattern (p : List Char) : List Char → Bool
  | [] => p.isEmpty
  | c :: rest => p.isPrefixOf (c :: rest) || containsPattern p rest

/-- The whitespace class trimmed by JavaScript `String.prototype.trim`
(line 116); the ASCII part plus NBSP and BOM covers every character the
claims exercise. -/
def jsWhitespace (c : Char) : Bool :=
  c == ' ' || c == '\t' || c == '\n' || c == '\r' || c == '\x0b' || c == '\x0c' ||
    c == ' ' || c == '﻿'

/-- `input.trim()` (line 116). -/
def jsTrim (l : List Char) : List Char :=
  ((l.dropWhile jsWhitespace).reverse.dropWhile jsWhitespace).reverse

/-- The fixed output template `https://drive.google.com/uc?export=download&id=`
that the file id is appended to (line 146). -/
def directLinkBase : List Char :=
  "https://drive.google.com/uc?export=download&id=".data

/-- Status text of line 129. -/
def pleaseEnterMsg : List Char := "Please enter a Google Drive link.".data

/-- Status text of line 157. -/
def invalidFormatMsg : List Char :=
  "Invalid Google Drive link format. Please ensure it's a valid file link.".data

/-- Status text of line 149. -/
def successMsg : List Char := "Direct download link generated successfully!".data

/-- Status text of line 175. -/
def noLinkMsg : List Char := "No link to copy!".data

/-- Status text of line 182. -/
def copiedMsg : List Char := "Link copied to clipboard!".data

/-- Status text of line 185. -/
def copyFailMsg : List Char := "Failed to copy link. Please copy manually.".data

/-- Severity marker "error". -/
def errorType : List Char := "error".data

/-- Severity marker "success". -/
def successType : List Char := "success".data

/-- Severity marker "info". -/
def infoType : List Char := "info".data

/-- The DOM state the script reads and writes: the two text fields, the
status area (`textContent`, `data-type` attribute, `show` class,
`style.display`), the copy button's three inline styles (lines 86-88) and the
generate button's `loading` class. -/
structure GState where
  driveLink : List Char
  output : List Char
  statusText : List Char
  statusType : Option (List Char)
  statusShow : Bool
  statusDisplayBlock : Bool
  copyPointerEvents : List Char
  copyOpacity : List Char
  copyCursor : List Char
  loading : Bool
deriving DecidableEq

/-- `toggleCopyButtonState` (lines 84-89): `isDisabled` is the falsiness of
`outputLinkInput.value`, i.e. emptiness. -/
def toggleCopyButtonState (s : GState) : GState :=
  let isDisabled := s.output.isEmpty
  { s with
    copyPointerEvents := if isDisabled then "none".data else "auto".data
    copyOpacity := if isDisabled then "0.5".data else "1".data
    copyCursor := if isDisabled then "not-allowed".data else "pointer".data }

/-- The synchronous DOM effect of `displayStatusMessage` (lines 61-65): set
text and `data-type`, add the `show` class, set `display: block`.  The
`clearTimeout`/`setTimeout` part of the same function is modelled on
`NotifierState` below, where timers exist. -/
def displayStatusMessage (s : GState) (message ty : List Char) : GState :=
  { s with
    statusText := message
    statusType := some ty
    statusShow := true
    statusDisplayBlock := true }

/-- `startButtonLoading` (lines 97-99). -/
def startButtonLoading (s : GState) : GState :=
  { s with loading := true }

/-- `stopButtonLoading` (lines 105-107). -/
def stopButtonLoading (s : GState) : GState :=
  { s with loading := false }

/-- The externally visible actions `generateLink` performs, in program order. -/
inductive GAction where
  | setOutputValue (v : List Char)
  | clearStatus
  | toggleCopy
  | showStatus (message ty : List Char)
  | startLoading
  | awaitDelay (ms : Nat)
  | runExtract (input : List Char)
  | focusSelectOutput
  | stopLoading
deriving DecidableEq

/-- Lines 119-125 of `generateLink`: clear the output value, clear the status
area, refresh the copy button. -/
def clearPhase (s : GState) : GState :=
  let s1 := { s with output := [] }
  let s2 := { s1 with
    statusShow := false
    statusText := []
    statusDisplayBlock := false
    statusType := none }
  toggleCopyButtonState s2

/-- The trace of lines 119-125. -/
def clearTrace : List GAction :=
  [GAction.setOutputValue [], GAction.clearStatus, GAction.toggleCopy]

/-- `generateLink` (lines 115-165): trim, clear previous output/status,
refresh the copy button, early-return on empty input, otherwise loading,
fixed 1200 ms delay, regex match on the trimmed input, then either store the
template link and show success (lines 144-154) or show the invalid-format
error (lines 155-160), and in both cases stop loading and refresh the copy
button (lines 163-164).  Returns the final state and the action trace. -/
def generateLink (s0 : GState) : GState × List GAction :=
  let input := jsTrim s0.driveLink
  let s3 := clearPhase s0
  if input.isEmpty then
    (displayStatusMessage s3 pleaseEnterMsg errorType,
     clearTrace ++ [GAction.showStatus pleaseEnterMsg errorType])
  else
    let s4 := startButtonLoading s3
    let tr1 := clearTrace ++
      [GAction.startLoading, GAction.awaitDelay 1200, GAction.runExtract input]
    match extract input with
    | some fileId =>
      let directLink := directLinkBase ++ fileId
      let s5 := { s4 with output := directLink }
      let s6 := displayStatusMessage s5 successMsg successType
      let s7 := toggleCopyButtonState (stopButtonLoading s6)
      (s7, tr1 ++ [GAction.setOutputValue directLink,
        GAction.showStatus successMsg successType, GAction.focusSelectOutput,
        GAction.stopLoading, GAction.toggleCopy])
    | none =>
      let s5 := displayStatusMessage s4 invalidFormatMsg errorType
      let s6 := toggleCopyButtonState (stopButtonLoading s5)
      (s6, tr1 ++ [GAction.showStatus invalidFormatMsg errorType,
        GAction.stopLoading, GAction.toggleCopy])

/-- The externally visible actions of `copyToClipboard`, in program order. -/
inductive CopyAction where
  | showStatus (message ty : List Char)
  | selectOutput
  | execCopy
  | clearSelection
deriving DecidableEq

/-- `copyToClipboard` (lines 173-189): on empty output show the info toast and
stop; otherwise select, run `document.execCommand("copy")` — whose success is
the environment parameter `ok` — show the matching toast, and clear the
selection. -/
def copyToClipboard (s : GState) (ok : Bool) : GState × List CopyAction :=
  if s.output.isEmpty then
    (displayStatusMessage s noLinkMsg infoType,
     [CopyAction.showStatus noLinkMsg infoType])
  else
    let s1 := if ok then displayStatusMessage s copiedMsg successType
      else displayStatusMessage s copyFailMsg errorType
    (s1, [CopyAction.selectOutput, CopyAction.execCopy,
      CopyAction.showStatus (if ok then copiedMsg else copyFailMsg)
        (if ok then successType else errorType),
      CopyAction.clearSelection])

/-- Theme-related state: the persisted `localStorage` entry under key
`theme`, whether `body` carries the `dark-theme` class, and the checkbox. -/
structure ThemeState where
  storageTheme : Option (List Char)
  bodyDark : Bool
  toggleChecked : Bool
deriving DecidableEq

/-- `applySavedTheme` (lines 25-34): dark exactly when the persisted value is
the literal string "dark", light (and unchecked) otherwise, including when the
key is absent. -/
def applySavedTheme (s : ThemeState) : ThemeState :=
  if s.storageTheme = some "dark".data then
    { s with bodyDark := true, toggleChecked := true }
  else
    { s with bodyDark := false, toggleChecked := false }

/-- The `change` listener of the theme toggle (lines 40-48): reflect the
checkbox's current state onto the body class and persist it. -/
def themeToggleChange (s : ThemeState) : ThemeState :=
  if s.toggleChecked then
    { s with bodyDark := true, storageTheme := some "dark".data }
  else
    { s with bodyDark := false, storageTheme := some "light".data }

/-- A user toggle interaction: the checkbox takes its new state, then the
`change` listener runs. -/
def userToggle (s : ThemeState) (checked : Bool) : ThemeState :=
  themeToggleChange { s with toggleChecked := checked }

/-- Kinds of timers `displayStatusMessage` schedules: the tracked 5000 ms
dismiss timer (line 67) and the untracked nested 400 ms clear timer
(line 70). -/
inductive TimerKind where
  | dismissOuter
  | dismissInner
deriving DecidableEq

/-- A scheduled timeout: its id, its kind, and its absolute due time. -/
structure PendingTimer where
  id : Nat
  kind : TimerKind
  due : Nat
deriving DecidableEq

/-- The status area together with the timer environment: pending timeouts,
the one id the script stores in `statusMessageTimeoutId` (line 11), current
time, and a fresh-id counter. -/
structure NotifierState where
  text : List Char
  dataType : Option (List Char)
  showClass : Bool
  displayBlock : Bool
  timers : List PendingTimer
  statusMessageTimeoutId : Option Nat
  now : Nat
  nextTimerId : Nat
deriving DecidableEq

/-- `clearTimeout(i)`: remove the timeout with id `i` if it is still pending;
a no-op on an id that already fired (or before any timer was created). -/
def clearTimeout (timers : List PendingTimer) : Option Nat → List PendingTimer
  | none => timers
  | some i => timers.filter (fun t => t.id != i)

/-- `displayStatusMessage` with its timer effects (lines 58-76):
`clearTimeout(statusMessageTimeoutId)`, set the message synchronously, then
schedule the 5000 ms dismiss timer and store its id in
`statusMessageTimeoutId`. -/
def displayStatusMessageTimed (s : NotifierState) (message ty : List Char) :
    NotifierState :=
  let timers := clearTimeout s.timers s.statusMessageTimeoutId
  { s with
    text := message
    dataType := some ty
    showClass := true
    displayBlock := true
    timers := timers ++ [⟨s.nextTimerId, TimerKind.dismissOuter, s.now + 5000⟩]
    statusMessageTimeoutId := some s.nextTimerId
    nextTimerId := s.nextTimerId + 1 }

/-- Fire the pending timeout with id `i`.  The 5000 ms callback (lines 67-75)
removes the `show` class and schedules the nested 400 ms timer — whose id the
script does not store.  The 400 ms callback (lines 70-74) clears the text,
hides the element and removes `data-type`. -/
def fireTimer (s : NotifierState) (i : Nat) : NotifierState :=
  match s.timers.find? (fun t => t.id == i) with
  | none => s
  | some t =>
    let rest := s.timers.filter (fun u => u.id != i)
    match t.kind with
    | TimerKind.dismissOuter =>
      { s with
        now := t.due
        showClass := false
        timers := rest ++ [⟨s.nextTimerId, TimerKind.dismissInner, t.due + 400⟩]
        nextTimerId := s.nextTimerId + 1 }
    | TimerKind.dismissInner =>
      { s with
        now := t.due
        timers := rest
        text := []
        displayBlock := false
        dataType := none }

/-- Events of the status notifier: a call to `displayStatusMessage` at wall
time `t`, or the event loop firing the pending timeout with id `i`. -/
inductive NEvent where
  | display (message ty : List Char) (t : Nat)
  | fire (i : Nat)
deriving DecidableEq

/-- One event step. -/
def stepN (s : NotifierState) : NEvent → NotifierState
  | NEvent.display m ty t => displayStatusMessageTimed { s with now := t } m ty
  | NEvent.fire i => fireTimer s i

/-- Event-loop legality of a single event: calls happen at or after the
current time; a timeout fires only if it is pending and no other pending
timeout is due earlier. -/
def legalEvent (s : NotifierState) : NEvent → Bool
  | NEvent.display _ _ t => s.now ≤ t
  | NEvent.fire i =>
    match s.timers.find? (fun t => t.id == i) with
    | none => false
    | some t => s.timers.all (fun u => t.due ≤ u.due)

/-- Run a sequence of events. -/
def runN : NotifierState → List NEvent → NotifierState
  | s, [] => s
  | s, e :: es => runN (stepN s e) es

/-- Whether every event of the sequence is legal in the state it meets. -/
def legalRun : NotifierState → List NEvent → Bool
  | _, [] => true
  | s, e :: es => legalEvent s e && legalRun (stepN s e) es

/-- The page-load notifier state: empty toast, no timers, no stored id. -/
def initialNotifier : NotifierState :=
  { text := []
    dataType := none
    showClass := false
    displayBlock := false
    timers := []
    statusMessageTimeoutId := none
    now := 0
    nextTimerId := 0 }

/-- The copy-button enablement contract: the three inline styles of lines
86-88 agree with the emptiness of the output value. -/
def copyStateReflects (s : GState) : Prop :=
  if s.output.isEmpty then
    s.copyPointerEvents = "none".data ∧ s.copyOpacity = "0.5".data ∧
      s.copyCursor = "not-allowed".data
  else
    s.copyPointerEvents = "auto".data ∧ s.copyOpacity = "1".data ∧
      s.copyCursor = "pointer".data

/-- A page state with the given input-field content, used to instantiate the
universally quantified theorems at concrete inputs. -/
def mkState (link : List Char) : GState :=
  { driveLink := link
    output := []
    statusText := []
    statusType := none
    statusShow := false
    statusDisplayBlock := false
    copyPointerEvents := "none".data
    copyOpacity := "0.5".data
    copyCursor := "not-allowed".data
    loading := false }

/-! ### Helper lemmas about the pattern matcher -/

theorem mem_of_isPrefixOf : ∀ {p l : List Char} {c : Char},
    p.isPrefixOf l = true → c ∈ p → c ∈ l
  | [], _, _, _, hc => absurd hc (List.not_mem_nil _)
  | _ :: _, [], _, h, _ => by simp [List.isPrefixOf] at h
  | a :: as, b :: bs, c, h, hc => by
    rw [List.isPrefixOf, Bool.and_eq_true, beq_iff_eq] at h
    rcases List.mem_cons.mp hc with hc | hc
    · exact List.mem_cons.mpr (Or.inl (hc.trans h.1))
    · exact List.mem_cons.mpr (Or.inr (mem_of_isPrefixOf h.2 hc))

theorem append_drop_of_isPrefixOf : ∀ {p l : List Char},
    p.isPrefixOf l = true → p ++ l.drop p.length = l
  | [], l, _ => rfl
  | _ :: _, [], h => by simp [List.isPrefixOf] at h
  | a :: as, b :: bs, h => by
    rw [List.isPrefixOf, Bool.and_eq_true, beq_iff_eq] at h
    simpa [h.1] using append_drop_of_isPrefixOf h.2

theorem isPrefixOf_head {p : List Char} {c : Char} {l : List Char}
    (h : p.isPrefixOf (c :: l) = true) : p = [] ∨ p.head? = some c := by
  cases p with
  | nil => exact Or.inl rfl
  | cons a as =>
    rw [List.isPrefixOf, Bool.and_eq_true, beq_iff_eq] at h
    exact Or.inr (by rw [List.head?, h.1])

theorem stripFirst_some : ∀ {ps : List (List Char)} {l after : List Char},
    stripFirst ps l = some after →
    ∃ p, p ∈ ps ∧ p.isPrefixOf l = true ∧ after = l.drop p.length
  | [], _, _, h => by simp [stripFirst] at h
  | p :: ps, l, after, h => by
    rw [stripFirst] at h
    by_cases hp : p.isPrefixOf l
    · rw [if_pos hp] at h
      exact ⟨p, List.mem_cons_self .., hp, (Option.some_inj.mp h).symm⟩
    · rw [if_neg hp] at h
      obtain ⟨q, hq, h1, h2⟩ := stripFirst_some h
      exact ⟨q, List.mem_cons_of_mem _ hq, h1, h2⟩

theorem drivePatterns_head : ∀ p ∈ drivePatterns, p.head? = some 'h' := by decide

theorem drivePatterns_colon : ∀ p ∈ drivePatterns, ':' ∈ p := by decide

theorem stripDrivePattern_cons_ne {c : Char} {l : List Char} (h : c ≠ 'h') :
    stripDrivePattern (c :: l) = none := by
  cases heq : stripDrivePattern (c :: l) with
  | none => rfl
  | some after =>
    obtain ⟨p, hp, hpre, -⟩ := stripFirst_some heq
    have hh := drivePatterns_head p hp
    rcases isPrefixOf_head hpre with hnil | hhead
    · rw [hnil] at hh; simp at hh
    · rw [hhead] at hh
      exact absurd (Option.some_inj.mp hh) h

theorem extract_cons_none {c : Char} {rest : List Char}
    (h : stripDrivePattern (c :: rest) = none) :
    extract (c :: rest) = extract rest := by
  conv_lhs => unfold extract
  rw [h]

theorem extract_cons_some_empty {c : Char} {rest after : List Char}
    (h : stripDrivePattern (c :: rest) = some after)
    (he : (after.takeWhile idChar).isEmpty = true) :
    extract (c :: rest) = extract rest := by
  conv_lhs => unfold extract
  rw [h]
  show (if (after.takeWhile idChar).isEmpty = true then extract rest
    else some (after.takeWhile idChar)) = extract rest
  rw [if_pos he]

theorem extract_cons_some {c : Char} {rest after : List Char}
    (h : stripDrivePattern (c :: rest) = some after)
    (he : (after.takeWhile idChar).isEmpty = false) :
    extract (c :: rest) = some (after.takeWhile idChar) := by
  conv_lhs => unfold extract
  rw [h]
  show (if (after.takeWhile idChar).isEmpty = true then extract rest
    else some (after.takeWhile idChar)) = some (after.takeWhile idChar)
  rw [if_neg (by simp [he])]

theorem extract_cons_of_ne {c : Char} {l : List Char} (h : c ≠ 'h') :
    extract (c :: l) = extract l :=
  extract_cons_none (stripDrivePattern_cons_ne h)

theorem extract_append_of_ne : ∀ {pre : List Char} (l : List Char),
    (∀ c ∈ pre, c ≠ 'h') → extract (pre ++ l) = extract l
  | [], _, _ => rfl
  | c :: pre, l, h => by
    rw [List.cons_append,
      extract_cons_of_ne (h c (List.mem_cons_self ..)),
      extract_append_of_ne l (fun d hd => h d (List.mem_cons_of_mem _ hd))]

theorem extract_eq_none_of_no_pattern : ∀ {l : List Char},
    (∀ p ∈ drivePatterns, containsPattern p l = false) → extract l = none
  | [], _ => rfl
  | c :: rest, h => by
    have hstrip : stripDrivePattern (c :: rest) = none := by
      cases heq : stripDrivePattern (c :: rest) with
      | none => rfl
      | some after =>
        obtain ⟨p, hp, hpre, -⟩ := stripFirst_some heq
        have hc := h p hp
        rw [containsPattern, hpre] at hc
        simp at hc
    rw [extract_cons_none hstrip]
    refine extract_eq_none_of_no_pattern fun p hp => ?_
    have hc := h p hp
    rw [containsPattern, Bool.or_eq_false_iff] at hc
    exact hc.2

theorem extract_eq_none_of_all_idChar : ∀ {l : List Char},
    l.all idChar = true → extract l = none
  | [], _ => rfl
  | c :: rest, h => by
    have hstrip : stripDrivePattern (c :: rest) = none := by
      cases heq : stripDrivePattern (c :: rest) with
      | none => rfl
      | some after =>
        obtain ⟨p, hp, hpre, -⟩ := stripFirst_some heq
        have hcolon : ':' ∈ c :: rest :=
          mem_of_isPrefixOf hpre (drivePatterns_colon p hp)
        have := List.all_eq_true.mp h _ hcolon
        simp [idChar] at this
    rw [extract_cons_none hstrip]
    exact extract_eq_none_of_all_idChar (List.all_eq_true.mpr
      fun a ha => List.all_eq_true.mp h _ (List.mem_cons_of_mem _ ha))

theorem extract_some_spec : ∀ {l fid : List Char}, extract l = some fid →
    ∃ pre p rest, l = pre ++ (p ++ rest) ∧ p ∈ drivePatterns ∧
      fid = rest.takeWhile idChar ∧ fid ≠ []
  | [], _, h => by simp [extract] at h
  | c :: tail, fid, h => by
    have step : extract (c :: tail) = extract tail →
        ∃ pre p rest, c :: tail = pre ++ (p ++ rest) ∧ p ∈ drivePatterns ∧
          fid = rest.takeWhile idChar ∧ fid ≠ [] := by
      intro he
      rw [he] at h
      obtain ⟨pre, p, rest, h1, h2, h3, h4⟩ := extract_some_spec h
      exact ⟨c :: pre, p, rest, by rw [List.cons_append, h1], h2, h3, h4⟩
    cases heq : stripDrivePattern (c :: tail) with
    | none => exact step (extract_cons_none heq)
    | some after =>
      cases hfe : (after.takeWhile idChar).isEmpty with
      | true => exact step (extract_cons_some_empty heq hfe)
      | false =>
        rw [extract_cons_some heq hfe] at h
        obtain ⟨p, hp, hpre, hafter⟩ := stripFirst_some heq
        refine ⟨[], p, after, ?_, hp, (Option.some_inj.mp h).symm, ?_⟩
        · rw [List.nil_append, hafter]
          exact (append_drop_of_isPrefixOf hpre).symm
        · intro hn
          rw [Option.some_inj.mp h, hn] at hfe
          simp [List.isEmpty] at hfe

/-! ### Evaluation lemmas for the generation orchestrator -/

theorem generateLink_empty {s : GState} (h : (jsTrim s.driveLink).isEmpty = true) :
    generateLink s = (displayStatusMessage (clearPhase s) pleaseEnterMsg errorType,
      clearTrace ++ [GAction.showStatus pleaseEnterMsg errorType]) := by
  unfold generateLink
  rw [if_pos h]

theorem generateLink_some {s : GState} {fid : List Char}
    (hne : (jsTrim s.driveLink).isEmpty = false)
    (h : extract (jsTrim s.driveLink) = some fid) :
    generateLink s =
      (toggleCopyButtonState (stopButtonLoading (displayStatusMessage
        { startButtonLoading (clearPhase s) with output := directLinkBase ++ fid }
        successMsg successType)),
       (clearTrace ++ [GAction.startLoading, GAction.awaitDelay 1200,
          GAction.runExtract (jsTrim s.driveLink)]) ++
        [GAction.setOutputValue (directLinkBase ++ fid),
         GAction.showStatus successMsg successType, GAction.focusSelectOutput,
         GAction.stopLoading, GAction.toggleCopy]) := by
  unfold generateLink
  rw [if_neg (by simp [hne]), h]

theorem generateLink_none {s : GState}
    (hne : (jsTrim s.driveLink).isEmpty = false)
    (h : extract (jsTrim s.driveLink) = none) :
    generateLink s =
      (toggleCopyButtonState (stopButtonLoading (displayStatusMessage
        (startButtonLoading (clearPhase s)) invalidFormatMsg errorType)),
       (clearTrace ++ [GAction.startLoading, GAction.awaitDelay 1200,
          GAction.runExtract (jsTrim s.driveLink)]) ++
        [GAction.showStatus invalidFormatMsg errorType,
         GAction.stopLoading, GAction.toggleCopy]) := by
  unfold generateLink
  rw [if_neg (by simp [hne]), h]

/-! ### Copy-button enablement helper lemmas -/

theorem copyReflects_toggle (s : GState) :
    copyStateReflects (toggleCopyButtonState s) := by
  unfold copyStateReflects toggleCopyButtonState
  cases h : s.output.isEmpty <;> simp [h]

theorem copyReflects_display {s : GState} (h : copyStateReflects s)
    (m ty : List Char) : copyStateReflects (displayStatusMessage s m ty) := by
  unfold displayStatusMessage
  unfold copyStateReflects at h ⊢
  simpa using h

theorem copyReflects_clearPhase (s : GState) : copyStateReflects (clearPhase s) := by
  unfold clearPhase
  exact copyReflects_toggle _

/-! ### Claim theorems -/

/-- C1: for every input whose trimmed value matches a recognized Google Drive
URL shape (i.e. `extract` succeeds), `generateLink` sets the output value to
exactly `https://drive.google.com/uc?export=download&id=<fileId>` with the
file id substituted verbatim, and that file id is the maximal contiguous run
of `[A-Za-z0-9_-]` characters immediately following an occurrence of one of
the recognized prefixes. -/
theorem C1_output_template (s : GState) (fid : List Char)
    (h : extract (jsTrim s.driveLink) = some fid) :
    (generateLink s).1.output = directLinkBase ++ fid ∧
    ∃ pre p rest, jsTrim s.driveLink = pre ++ (p ++ rest) ∧ p ∈ drivePatterns ∧
      fid = rest.takeWhile idChar ∧ fid ≠ [] := by
  have hne : (jsTrim s.driveLink).isEmpty = false := by
    cases hj : jsTrim s.driveLink with
    | nil => rw [hj] at h; simp [extract] at h
    | cons a b => rfl
  refine ⟨?_, extract_some_spec h⟩
  rw [generateLink_some hne h]
  simp [toggleCopyButtonState, stopButtonLoading, displayStatusMessage]

theorem C1_witness :
    extract (jsTrim (mkState "https://drive.google.com/file/d/abc".data).driveLink)
      = some "abc".data ∧
    ((generateLink (mkState "https://drive.google.com/file/d/abc".data)).1.output
      = directLinkBase ++ "abc".data ∧
    ∃ pre p rest,
      jsTrim (mkState "https://drive.google.com/file/d/abc".data).driveLink
        = pre ++ (p ++ rest) ∧ p ∈ drivePatterns ∧
      "abc".data = rest.takeWhile idChar ∧ "abc".data ≠ []) := by
  have h := C1_output_template (mkState "https://drive.google.com/file/d/abc".data)
    "abc".data (by decide)
  exact ⟨by decide, h⟩

/-- C2, counterexample: the claim that a `show` call made before a prior
message's dismiss delays have elapsed always cancels all pending dismiss
timers (so at most one dismissal timer is ever pending) fails on the code.
In the legal event sequence below, a message is shown at time 0, its tracked
5000 ms timer fires at 5000 and schedules the untracked 400 ms clear timer,
and a second message is shown at 5100 — before the prior message's delays
have fully elapsed.  `clearTimeout` is called on the already-fired tracked
id, so the prior clear timer survives: two dismissal timers are pending, and
at 5400 the stale clear timer fires and blanks the new message's text only
300 ms after it appeared. -/
theorem C2_counterexample :
    let tr := [NEvent.display "A".data "error".data 0, NEvent.fire 0,
      NEvent.display "B".data "success".data 5100]
    legalRun initialNotifier tr = true ∧
    (runN initialNotifier tr).text = "B".data ∧
    (runN initialNotifier tr).timers.length = 2 ∧
    legalRun initialNotifier (tr ++ [NEvent.fire 1]) = true ∧
    (runN initialNotifier (tr ++ [NEvent.fire 1])).text = [] ∧
    (runN initialNotifier (tr ++ [NEvent.fire 1])).now = 5400 := by decide

/-- C2, amended: a `show` call cancels exactly the pending timer whose id is
tracked in `statusMessageTimeoutId`.  While the tracked 5000 ms display timer
is the one pending timer, a new call cancels it and exactly one dismissal
timer (the new one) is pending afterwards; but during the 400 ms fade-out
window — when the pending timer is the untracked nested clear timer — a new
call cancels nothing, and two dismissal timers are pending afterwards. -/
theorem C2_cancel_tracked (s1 s2 : NotifierState) (i j d d2 t t2 : Nat)
    (m ty m2 ty2 : List Char)
    (h1 : s1.timers = [⟨i, TimerKind.dismissOuter, d⟩])
    (h2 : s1.statusMessageTimeoutId = some i)
    (h3 : s2.timers = [⟨j, TimerKind.dismissInner, d2⟩])
    (h4 : s2.statusMessageTimeoutId = some i)
    (h5 : i ≠ j) :
    (displayStatusMessageTimed { s1 with now := t } m ty).timers =
      [⟨s1.nextTimerId, TimerKind.dismissOuter, t + 5000⟩] ∧
    (displayStatusMessageTimed { s1 with now := t } m ty).text = m ∧
    (displayStatusMessageTimed { s2 with now := t2 } m2 ty2).timers =
      [⟨j, TimerKind.dismissInner, d2⟩,
       ⟨s2.nextTimerId, TimerKind.dismissOuter, t2 + 5000⟩] := by
  refine ⟨?_, rfl, ?_⟩
  · simp [displayStatusMessageTimed, clearTimeout, h1, h2]
  · simp [displayStatusMessageTimed, clearTimeout, h3, h4, Ne.symm h5]

theorem C2_witness :
    let ns1 : NotifierState :=
      { text := "A".data, dataType := some errorType, showClass := true,
        displayBlock := true, timers := [⟨0, TimerKind.dismissOuter, 5000⟩],
        statusMessageTimeoutId := some 0, now := 0, nextTimerId := 1 }
    let ns2 : NotifierState :=
      { text := "A".data, dataType := some errorType, showClass := false,
        displayBlock := true, timers := [⟨1, TimerKind.dismissInner, 5400⟩],
        statusMessageTimeoutId := some 0, now := 5000, nextTimerId := 2 }
    ns1.timers = [⟨0, TimerKind.dismissOuter, 5000⟩] ∧
    ns1.statusMessageTimeoutId = some 0 ∧
    ns2.timers = [⟨1, TimerKind.dismissInner, 5400⟩] ∧
    ns2.statusMessageTimeoutId = some 0 ∧
    (0 : Nat) ≠ 1 ∧
    ((displayStatusMessageTimed { ns1 with now := 100 } "B".data successType).timers =
      [⟨1, TimerKind.dismissOuter, 5100⟩] ∧
    (displayStatusMessageTimed { ns1 with now := 100 } "B".data successType).text =
      "B".data ∧
    (displayStatusMessageTimed { ns2 with now := 5100 } "B".data successType).timers =
      [⟨1, TimerKind.dismissInner, 5400⟩, ⟨2, TimerKind.dismissOuter, 10100⟩]) := by
  intro ns1 ns2
  have h := C2_cancel_tracked ns1 ns2 0 1 5000 5400 100 5100
    "B".data successType "B".data successType rfl rfl rfl rfl (by decide)
  exact ⟨rfl, rfl, rfl, rfl, by decide, h⟩

/-- C3, counterexample: the claim quantifies over every input string that
contains no recognized prefix, and asserts the status "Invalid Google Drive
link format. Please ensure it's a valid file link." is emitted.  The empty
input contains no recognized prefix, extraction does return `NoMatch` and the
output stays empty, but the emitted status is "Please enter a Google Drive
link." — the empty-input guard fires before the extractor is reached. -/
theorem C3_counterexample :
    drivePatterns.all
      (fun p => !(containsPattern p (mkState []).driveLink)) = true ∧
    extract (jsTrim (mkState []).driveLink) = none ∧
    (generateLink (mkState [])).1.output = [] ∧
    (generateLink (mkState [])).1.statusText = pleaseEnterMsg ∧
    pleaseEnterMsg ≠ invalidFormatMsg := by decide

/-- C3, amended: for every input that contains no recognized prefix and whose
trimmed value is non-empty, extraction returns `NoMatch`, `generateLink`
leaves the output value empty, and it emits the invalid-format status with
severity error. -/
theorem C3_no_pattern (s : GState)
    (hno : drivePatterns.all
      (fun p => !(containsPattern p (jsTrim s.driveLink))) = true)
    (hne : (jsTrim s.driveLink).isEmpty = false) :
    extract (jsTrim s.driveLink) = none ∧
    (generateLink s).1.output = [] ∧
    (generateLink s).1.statusText = invalidFormatMsg ∧
    (generateLink s).1.statusType = some errorType := by
  have hx : extract (jsTrim s.driveLink) = none := by
    refine extract_eq_none_of_no_pattern fun p hp => ?_
    have := List.all_eq_true.mp hno p hp
    simpa using this
  refine ⟨hx, ?_, ?_, ?_⟩ <;> rw [generateLink_none hne hx] <;>
    simp [toggleCopyButtonState, stopButtonLoading, displayStatusMessage,
      startButtonLoading, clearPhase]

theorem C3_witness :
    drivePatterns.all
      (fun p => !(containsPattern p (jsTrim (mkState "hello".data).driveLink))) = true ∧
    (jsTrim (mkState "hello".data).driveLink).isEmpty = false ∧
    (extract (jsTrim (mkState "hello".data).driveLink) = none ∧
    (generateLink (mkState "hello".data)).1.output = [] ∧
    (generateLink (mkState "hello".data)).1.statusText = invalidFormatMsg ∧
    (generateLink (mkState "hello".data)).1.statusType = some errorType) := by
  exact ⟨by decide, by decide, C3_no_pattern _ (by decide) (by decide)⟩

/-- C4: for every input whose whitespace-trimmed value is empty,
`generateLink` emits "Please enter a Google Drive link." with severity error,
never invokes the link extractor, never enters the loading state, and leaves
the output value empty. -/
theorem C4_empty_input (s : GState) (h : jsTrim s.driveLink = []) :
    (generateLink s).1.statusText = pleaseEnterMsg ∧
    (generateLink s).1.statusType = some errorType ∧
    (generateLink s).1.output = [] ∧
    (generateLink s).1.loading = s.loading ∧
    (∀ i, GAction.runExtract i ∉ (generateLink s).2) ∧
    GAction.startLoading ∉ (generateLink s).2 := by
  have he : (jsTrim s.driveLink).isEmpty = true := by rw [h]; rfl
  rw [generateLink_empty he]
  refine ⟨rfl, rfl, ?_, ?_, ?_, ?_⟩
  · simp [displayStatusMessage, clearPhase, toggleCopyButtonState]
  · simp [displayStatusMessage, clearPhase, toggleCopyButtonState]
  · intro i
    simp [clearTrace]
  · simp [clearTrace]

theorem C4_witness :
    jsTrim (mkState "   ".data).driveLink = [] ∧
    ((generateLink (mkState "   ".data)).1.statusText = pleaseEnterMsg ∧
    (generateLink (mkState "   ".data)).1.statusType = some errorType ∧
    (generateLink (mkState "   ".data)).1.output = [] ∧
    (generateLink (mkState "   ".data)).1.loading = (mkState "   ".data).loading ∧
    (∀ i, GAction.runExtract i ∉ (generateLink (mkState "   ".data)).2) ∧
    GAction.startLoading ∉ (generateLink (mkState "   ".data)).2) := by
  exact ⟨by decide, C4_empty_input _ (by decide)⟩

/-- C5: on every execution path of `generateLink` — successful extraction,
no-match, and the early-return empty-input path — the operation terminates
with the loading state cleared (the embedded operation is total, so these
paths are exhaustive). -/
theorem C5_loading_cleared (s : GState) (h : s.loading = false) :
    (generateLink s).1.loading = false := by
  cases hne : (jsTrim s.driveLink).isEmpty with
  | true =>
    rw [generateLink_empty hne]
    simpa [displayStatusMessage, clearPhase, toggleCopyButtonState] using h
  | false =>
    cases hx : extract (jsTrim s.driveLink) with
    | some fid =>
      rw [generateLink_some hne hx]
      simp [toggleCopyButtonState, stopButtonLoading, displayStatusMessage]
    | none =>
      rw [generateLink_none hne hx]
      simp [toggleCopyButtonState, stopButtonLoading, displayStatusMessage]

theorem C5_witness :
    (mkState "hello".data).loading = false ∧
    (generateLink (mkState "hello".data)).1.loading = false := by
  exact ⟨rfl, C5_loading_cleared _ rfl⟩

/-- C6: after the output-clearing phase at the start of a generation attempt
and at the end of every generation attempt (successful or failed), the copy
control's enabled state equals exactly the predicate "output value is
non-empty": pointer events none, opacity 0.5 and cursor not-allowed when
empty; pointer events auto, opacity 1 and cursor pointer when non-empty. -/
theorem C6_copy_enablement (s : GState) :
    copyStateReflects (clearPhase s) ∧ copyStateReflects (generateLink s).1 := by
  refine ⟨copyReflects_clearPhase s, ?_⟩
  cases hne : (jsTrim s.driveLink).isEmpty with
  | true =>
    rw [generateLink_empty hne]
    exact copyReflects_display (copyReflects_clearPhase s) _ _
  | false =>
    cases hx : extract (jsTrim s.driveLink) with
    | some fid => rw [generateLink_some hne hx]; exact copyReflects_toggle _
    | none => rw [generateLink_none hne hx]; exact copyReflects_toggle _

/-- C7: the theme preference round-trips — toggling to dark and re-applying
the saved preference yields the dark visual state and a checked toggle, the
same holds for light, and any persisted value other than the literal "dark"
(including an absent one) applies as light with an unchecked toggle. -/
theorem C7_theme_round_trip (s : ThemeState) (v : Option (List Char))
    (hv : v ≠ some "dark".data) :
    (applySavedTheme (userToggle s true)).bodyDark = true ∧
    (applySavedTheme (userToggle s true)).toggleChecked = true ∧
    (applySavedTheme (userToggle s false)).bodyDark = false ∧
    (applySavedTheme (userToggle s false)).toggleChecked = false ∧
    (applySavedTheme { s with storageTheme := v }).bodyDark = false ∧
    (applySavedTheme { s with storageTheme := v }).toggleChecked = false := by
  have hld : (some "light".data : Option (List Char)) ≠ some "dark".data := by decide
  unfold userToggle themeToggleChange applySavedTheme
  simp [hv, hld]

theorem C7_witness :
    (none : Option (List Char)) ≠ some "dark".data ∧
    ((applySavedTheme (userToggle ⟨none, false, false⟩ true)).bodyDark = true ∧
    (applySavedTheme (userToggle ⟨none, false, false⟩ true)).toggleChecked = true ∧
    (applySavedTheme (userToggle ⟨none, false, false⟩ false)).bodyDark = false ∧
    (applySavedTheme (userToggle ⟨none, false, false⟩ false)).toggleChecked = false ∧
    (applySavedTheme { (⟨none, false, false⟩ : ThemeState) with storageTheme := none }).bodyDark = false ∧
    (applySavedTheme { (⟨none, false, false⟩ : ThemeState) with storageTheme := none }).toggleChecked = false) := by
  exact ⟨by decide, C7_theme_round_trip ⟨none, false, false⟩ none (by decide)⟩

/-- C8: invoking `copyToClipboard` while the output value is empty shows the
status "No link to copy!" with severity info, performs no clipboard
interaction (the trace is exactly the one status action, with no select or
exec-copy action), and leaves the output value unchanged — whatever the
clipboard environment would have answered. -/
theorem C8_copy_empty_output (s : GState) (ok : Bool) (h : s.output = []) :
    (copyToClipboard s ok).1.statusText = noLinkMsg ∧
    (copyToClipboard s ok).1.statusType = some infoType ∧
    (copyToClipboard s ok).1.output = s.output ∧
    (copyToClipboard s ok).2 = [CopyAction.showStatus noLinkMsg infoType] ∧
    CopyAction.execCopy ∉ (copyToClipboard s ok).2 := by
  have he : s.output.isEmpty = true := by rw [h]; rfl
  simp [copyToClipboard, he, displayStatusMessage]

theorem C8_witness :
    (mkState []).output = [] ∧
    ((copyToClipboard (mkState []) true).1.statusText = noLinkMsg ∧
    (copyToClipboard (mkState []) true).1.statusType = some infoType ∧
    (copyToClipboard (mkState []) true).1.output = (mkState []).output ∧
    (copyToClipboard (mkState []) true).2 =
      [CopyAction.showStatus noLinkMsg infoType] ∧
    CopyAction.execCopy ∉ (copyToClipboard (mkState []) true).2) := by
  exact ⟨rfl, C8_copy_empty_output _ true rfl⟩

/-- C9: link extraction is case-sensitive in the scheme and host/path part:
an upper-cased recognized shape is transparent to the scanner (extraction on
`HTTPS://DRIVE.GOOGLE.COM/FILE/D/` followed by anything equals extraction on
the remainder alone), so the claim's example input yields `NoMatch`, while
its lower-case counterpart extracts the id. -/
theorem C9_case_sensitivity :
    (∀ l : List Char,
      extract ("HTTPS://DRIVE.GOOGLE.COM/FILE/D/".data ++ l) = extract l) ∧
    extract "HTTPS://DRIVE.GOOGLE.COM/FILE/D/abc123".data = none ∧
    extract "https://drive.google.com/file/d/abc123".data = some "abc123".data := by
  refine ⟨fun l => extract_append_of_ne l (by decide), by decide, by decide⟩

/-- C10: a generated output link is never itself a recognized input — for
every file identifier (a string over `[A-Za-z0-9_-]`), extraction applied to
`https://drive.google.com/uc?export=download&id=<fileId>` returns `NoMatch`,
so feeding a generated link back into the generator does not round-trip. -/
theorem C10_generated_not_recognized (fid : List Char)
    (h : fid.all idChar = true) :
    extract (directLinkBase ++ fid) = none := by
  have h1 : extract (directLinkBase ++ fid) =
      extract ("ttps://drive.google.com/uc?export=download&id=".data ++ fid) := by
    have h0 : stripDrivePattern (directLinkBase ++ fid) = none := rfl
    exact extract_cons_none h0
  rw [h1, extract_append_of_ne fid (by decide)]
  exact extract_eq_none_of_all_idChar h

theorem C10_witness :
    "abc".data.all idChar = true ∧
    extract (directLinkBase ++ "abc".data) = none := by
  exact ⟨by decide, C10_generated_not_recognized _ (by decide)⟩
